import Mathlib

/-!
Verification development for the Chrome tab analyzer script
(`streamlit_app.py`).  The two core subsystems are shallowly embedded:

* the multi-instance tab discovery scanner `fetch_all_chrome_urls`
  (lines 54-117 of the source), modelled as a pure function over an
  abstract world that says, for each candidate port, whether the
  endpoint is reachable and, when it is, which browsing contexts and
  pages it exposes (a page read may fail, mirroring the per-page
  `try/except` of lines 77-95); `fetch_all_chrome_urls_run` additionally
  models the driver bootstrap of line 56 and the `finally` shutdown of
  line 117, which lie outside the `try`'s protection and raise to the
  caller when they fail;

* the analysis orchestrator `analyze_urls` (lines 124-207), modelled as
  a pure function from the tab inventory, the instruction, a telemetry
  world describing which Galileo steps would fail, and the agent's
  behaviour, to the returned value together with the trace of observable
  effects (session start, trace start, agent invocation, span, conclude,
  flush).

All machine behaviour the claims mention is translated from the source;
failure of an operation that the source wraps in `try/except` is
represented by data in the world, and an uncaught exception is
represented by an explicit `raised` outcome.
-/

namespace TabAnalyzer

/-- Page as observed through the debugging protocol: a URL string and a
title string (source lines 78-79). -/
structure Page where
  url : String
  title : String
deriving DecidableEq

/-- Tab record built by the scanner (source lines 84-90): source port,
1-based window index, 1-based tab index, URL and title. -/
structure TabInfo where
  port : Nat
  window : Nat
  tab : Nat
  url : String
  title : String
deriving DecidableEq

/-- Candidate debugging ports, source line 58. -/
def ports_to_check : List Nat := [9222, 9223, 9224, 9225, 9226]

/-- Prefix test on strings, the semantics of Python's `str.startswith`:
the pattern's characters are an initial segment of the string's
characters. -/
def strStartsWith (s pre : String) : Bool := pre.data.isPrefixOf s.data

/-- URL filter of source line 81: the URL is one of the three literal
placeholders or starts with the browser-internal scheme prefix. -/
def isExcludedUrl (url : String) : Bool :=
  (url == "about:blank" || url == "chrome://newtab/" || url == "") ||
    strStartsWith url "chrome://"

/-- Per-page extraction step (source lines 76-95).  The argument is
`none` when reading the page's URL/title raises (the page navigated away
or closed mid-scan), in which case the page is skipped; otherwise the
page is dropped when its URL is excluded, and recorded with 1-based
window and tab indices otherwise. -/
def extractPage (port ctx_idx page_idx : Nat) : Option Page → Option TabInfo
  | none => none
  | some p =>
      if isExcludedUrl p.url then none
      else some ⟨port, ctx_idx + 1, page_idx + 1, p.url, p.title⟩

/-- Extraction over one browsing context's ordered pages (the inner loop
of source lines 76-95); `enum` mirrors Python's `enumerate`. -/
def extractContext (port ctx_idx : Nat) (pages : List (Option Page)) : List TabInfo :=
  pages.enum.filterMap fun pg => extractPage port ctx_idx pg.1 pg.2

/-- One reachable endpoint's browsing contexts, each an ordered list of
page slots. -/
abbrev BrowserContexts := List (List (Option Page))

/-- Extraction over all contexts of one connected endpoint (source lines
72-95). -/
def extractEndpoint (port : Nat) (ctxs : BrowserContexts) : List TabInfo :=
  ctxs.enum.flatMap fun c => extractContext port c.1 c.2

/-- Aggregate scan report: the ordered record sequence `all_urls` and
the list `connected_ports` of reachable endpoints (source lines 59-60). -/
structure ScanOutcome where
  all_urls : List TabInfo
  connected_ports : List Nat
deriving DecidableEq

/-- Scan world: for each port, `none` when the CDP connection attempt
raises (endpoint unreachable, caught at source lines 99-100), otherwise
the endpoint's contexts. -/
abbrev Probe := Nat → Option BrowserContexts

/-- Body of the per-port loop (source lines 63-100): an unreachable port
leaves the accumulator unchanged; a reachable one appends the port to
`connected_ports` and the extracted records to `all_urls`. -/
def scanStep (probe : Probe) (acc : ScanOutcome) (port : Nat) : ScanOutcome :=
  match probe port with
  | none => acc
  | some ctxs =>
      ⟨acc.all_urls ++ extractEndpoint port ctxs, acc.connected_ports ++ [port]⟩

/-- The scanner `fetch_all_chrome_urls` (source lines 54-117): fold the
per-port loop body over the candidate port list, starting from empty
accumulators. -/
def fetch_all_chrome_urls (probe : Probe) : ScanOutcome :=
  ports_to_check.foldl (scanStep probe) ⟨[], []⟩

/-- Records contributed by a single candidate endpoint: none when it is
unreachable, its extraction otherwise. -/
def endpointRecords (probe : Probe) (port : Nat) : List TabInfo :=
  match probe port with
  | none => []
  | some ctxs => extractEndpoint port ctxs

/-- Driver lifecycle world for one whole scanner call: whether the
playwright bootstrap `async_playwright().start()` of source line 56
(which executes before the `try`) raises, whether the `finally` block's
`playwright.stop()` of line 117 raises, and the per-endpoint world of
the loop. -/
structure DriverWorld where
  startFails : Bool
  stopFails : Bool
  probe : Probe

/-- Outcome of one whole scanner call: `raised` when an uncaught
exception propagates to the caller, `completed` with the aggregate
report otherwise. -/
inductive ScanRun where
  | raised
  | completed (outcome : ScanOutcome)
deriving DecidableEq

/-- The scanner including driver bootstrap and shutdown (source lines
54-117).  A failing `start` at line 56 raises before the `try` is ever
entered.  Otherwise the loop body runs; per-endpoint and per-page
failures are absorbed inside it, so within the modelled world the `try`
body itself does not raise and the `except` of lines 112-114 is not
taken.  The `finally` block's `stop` at line 117 runs last: if it
raises, the exception replaces the computed return value and propagates
to the caller. -/
def fetch_all_chrome_urls_run (w : DriverWorld) : ScanRun :=
  if w.startFails then .raised
  else if w.stopFails then .raised
  else .completed (fetch_all_chrome_urls w.probe)

/-- Concrete scan world for witnesses: port 9222 exposes one context
with one valid page and one blank page; every other port is
unreachable. -/
def probeA : Probe := fun port =>
  if port = 9222 then
    some [[some ⟨"https://x.test/a", "Docs"⟩, some ⟨"about:blank", ""⟩]]
  else none

/-- Record the scanner extracts from `probeA`. -/
def tabA : TabInfo := ⟨9222, 1, 1, "https://x.test/a", "Docs"⟩

/-- Connection lifecycle events of the per-port loop: a successful CDP
connection (source line 66) and the corresponding close (source line
97). -/
inductive ScanEv where
  | connect (port : Nat)
  | close (port : Nat)
deriving DecidableEq

/-- One reachable endpoint's contexts for the lifecycle model: a slot is
`none` when enumerating that context's pages raises an exception that
escapes the per-page handlers of lines 77-95 (for example the browsing
context disappears mid-scan), which the per-port handler at lines 99-100
then catches. -/
abbrev PortContexts := List (Option (List (Option Page)))

/-- Connection events of one candidate port (source lines 63-100): an
unreachable port produces no events; a reachable one produces `connect`,
and `close` only when no context-level exception occurred — the close at
line 97 sits at the end of the `try` body, not in a `finally`, so any
exception reaching the per-port handler skips it. -/
def portEvents (port : Nat) : Option PortContexts → List ScanEv
  | none => []
  | some ctxs => .connect port :: (if none ∈ ctxs then [] else [.close port])

/-- Connection events of a whole scan, ports in candidate-list order. -/
def scanConnectionEvents (world : Nat → Option PortContexts) : List ScanEv :=
  ports_to_check.flatMap fun port => portEvents port (world port)

/-- Scan world in which port 9222 connects but its only context fails
mid-extraction, and all other ports are unreachable. -/
def leakyWorld : Nat → Option PortContexts :=
  fun port => if port = 9222 then some [none] else none

/-- Scan world for the C4 witness: port 9223 connects and has one
context whose pages all read cleanly except one failed page read. -/
def closingWorld : Nat → Option PortContexts :=
  fun port =>
    if port = 9223 then some [some [some ⟨"https://x.test/a", "Docs"⟩, none]] else none

/-- Replacement of every literal backslash-n occurrence by a newline on
character lists, the semantics of the source's
`analysis.replace('\x5cn', '\n')` at line 176 (Python `str.replace`
scans left to right replacing non-overlapping occurrences). -/
def pyReplaceBsN : List Char → List Char
  | [] => []
  | [c] => [c]
  | c :: d :: rest2 =>
      if c = '\\' ∧ d = 'n' then '\n' :: pyReplaceBsN rest2
      else c :: pyReplaceBsN (d :: rest2)

/-- String-level wrapper of `pyReplaceBsN`. -/
def pyReplaceBackslashN (s : String) : String := ⟨pyReplaceBsN s.data⟩

/-- Output normalization of source line 176: a falsy raw result (Python
`None` or the empty string) becomes the fixed marker, any other string
has its literal backslash-n escapes replaced by real line breaks. -/
def normalizeOutput : Option String → String
  | none => "Analysis failed"
  | some s => if s = "" then "Analysis failed" else pyReplaceBackslashN s

/-- One numbered inventory line of source line 149: 1-based index, then
`title - url`. -/
def tabLine (i : Nat) (tab : TabInfo) : String :=
  toString (i + 1) ++ ". " ++ tab.title ++ " - " ++ tab.url

/-- The `urls_text` block of source line 149: numbered lines joined by
newlines. -/
def urlsText (tabs : List TabInfo) : String :=
  String.intercalate "\n" (tabs.enum.map fun it => tabLine it.1 it.2)

/-- The prompt composer, the f-string of source lines 152-158, byte for
byte: leading newline and indentation, the literal tab count, the
numbered inventory, then the verbatim instruction and trailing
indentation. -/
def composeTask (tabs : List TabInfo) (custom_task : String) : String :=
  "\n    I have " ++ toString tabs.length ++
    " browser tabs saved. Here\x27s the list:\n    \n    " ++
    urlsText tabs ++ "\n    \n    " ++ custom_task ++ "\n    "

/-- Behaviour of one agent invocation (source lines 169-172): the call
either raises, or completes with an optional final-result string
(`result.final_result()` may be `None`). -/
inductive AgentBehavior where
  | raises
  | returns (res : Option String)

/-- Observable side effects of one orchestration call, in program
order: Galileo session start (line 141), trace start (line 163), the
agent invocation carrying its task string (lines 170-172), the LLM span
(line 183), the trace conclusion (line 193) and the flush (line 194). -/
inductive Effect where
  | sessionStart
  | traceStart
  | agentInvoked (task : String)
  | spanAdd
  | concludeTrace
  | flushTrace
deriving DecidableEq

/-- Telemetry world: whether the Galileo SDK imported (line 44), and
which of the guarded telemetry steps would raise if attempted — the
init/session block (lines 139-141), `start_trace` (line 163), the span,
conclude and flush calls (lines 183-194). -/
structure TelemetryWorld where
  available : Bool
  initFails : Bool
  traceFails : Bool
  spanFails : Bool
  concludeFails : Bool
  flushFails : Bool
deriving DecidableEq

/-- Outcome of one orchestration call: either the uncaught agent
exception propagates to the caller, or the function returns its Python
value — `none` for the `return None` of line 128, `some text` for the
normalized analysis of line 207. -/
inductive AnalyzeResult where
  | raised
  | returned (res : Option String)
deriving DecidableEq

/-- The orchestrator `analyze_urls` (source lines 124-207) as a function
from the tab inventory, the instruction, the telemetry world and the
agent's behaviour to the outcome paired with the effect trace.  The
translation mirrors the source's control flow: the empty-inventory
rejection precedes everything (lines 127-128); the Galileo init block is
guarded by availability and its own `try/except` (lines 134-146); the
trace block only runs with a live logger (lines 161-166); the agent call
is not wrapped in any handler (lines 169-172), so its failure aborts the
call; the logging block (lines 179-205) runs only with a live session,
and when `start_trace` failed earlier, `start_time_ns` is undefined so
the block's first statement raises and is caught, skipping span,
conclude and flush; a failure at the span skips conclude and flush, and
a failure at conclude skips the flush. -/
def analyze_urls (tabs : List TabInfo) (custom_task : String) (w : TelemetryWorld)
    (agent : String → AgentBehavior) : AnalyzeResult × List Effect :=
  if tabs = [] then (.returned none, [])
  else
    let sessionActive := w.available && !w.initFails
    let preInit : List Effect := if sessionActive then [.sessionStart] else []
    let task := composeTask tabs custom_task
    let traceStarted := sessionActive && !w.traceFails
    let preTrace : List Effect := if traceStarted then [.traceStart] else []
    match agent task with
    | .raises => (.raised, preInit ++ preTrace ++ [.agentInvoked task])
    | .returns res =>
        let clean_analysis := normalizeOutput res
        let logEvents : List Effect :=
          if traceStarted then
            if w.spanFails then []
            else .spanAdd ::
              (if w.concludeFails then []
               else .concludeTrace :: (if w.flushFails then [] else [.flushTrace]))
          else []
        (.returned (some clean_analysis), preInit ++ preTrace ++ [.agentInvoked task] ++ logEvents)

/-- Telemetry world with the Galileo SDK absent: every telemetry step is
a no-op. -/
def telemetryDisabled : TelemetryWorld := ⟨false, false, false, false, false, false⟩

/-- Telemetry world in which the SDK is present but the span, conclude
and flush steps all fail. -/
def telemetryAllFail : TelemetryWorld := ⟨true, false, false, true, true, true⟩

/-- One-record inventory reused by the orchestrator witnesses. -/
def tabsOne : List TabInfo := [tabA]

/-- Substring occurrence test: the characters of `pat` appear in `s`
starting exactly at index `i`. -/
def occursAtB (pat s : List Char) (i : Nat) : Bool :=
  (s.drop i).take pat.length == pat

/-- Three-tab inventory for the composer scenario (three pages of one
context of port 9222). -/
def tabsB : List TabInfo :=
  [⟨9222, 1, 1, "u", "A"⟩, ⟨9222, 1, 2, "v", "B"⟩, ⟨9222, 1, 3, "w", "C"⟩]

/-- The block of three numbered `title - url` lines the composer renders
for `tabsB`. -/
def linesB : List Char := ("1. A - u\n2. B - v\n3. C - w").data

/-- Characters of the full composed prompt for `tabsB` with instruction
`List topics`. -/
def outB : List Char := (composeTask tabsB "List topics").data

theorem scan_foldl_eq (probe : Probe) (l : List Nat) (acc : ScanOutcome) :
    l.foldl (scanStep probe) acc =
      ⟨acc.all_urls ++ l.flatMap (endpointRecords probe),
       acc.connected_ports ++ l.filter fun p => (probe p).isSome⟩ := by
  induction l generalizing acc with
  | nil => simp
  | cons hd tl ih =>
      cases h : probe hd with
      | none =>
          simp only [List.foldl_cons, scanStep, h, ih, List.flatMap_cons,
            List.filter_cons, endpointRecords, h, Option.isSome_none]
          simp [endpointRecords, h]
      | some ctxs =>
          simp only [List.foldl_cons, scanStep, h, ih]
          simp [endpointRecords, h, List.filter_cons]

/-- C1: for every scan world, the output record sequence is exactly the
concatenation, in candidate-list order (9222, 9223, 9224, 9225, 9226),
of each endpoint's extraction — which itself concatenates per-context
record lists in context-enumeration order, each built from pages in
page-enumeration order — with unreachable endpoints contributing the
empty list, so the ordering of the surviving records is independent of
which endpoints were unreachable; moreover `connected_ports` is the
candidate list filtered to the reachable endpoints. -/
theorem scan_output_is_ordered_concatenation (probe : Probe) :
    (fetch_all_chrome_urls probe).all_urls =
        ports_to_check.flatMap (endpointRecords probe) ∧
    (fetch_all_chrome_urls probe).connected_ports =
        ports_to_check.filter fun p => (probe p).isSome := by
  unfold fetch_all_chrome_urls
  rw [scan_foldl_eq]
  exact ⟨by simp, by simp⟩

theorem extractPage_url_not_excluded (port ctx_idx page_idx : Nat) (op : Option Page)
    (t : TabInfo) (h : extractPage port ctx_idx page_idx op = some t) :
    isExcludedUrl t.url = false := by
  cases op with
  | none => simp [extractPage] at h
  | some p =>
      cases hex : isExcludedUrl p.url with
      | true => simp [extractPage, hex] at h
      | false =>
          simp only [extractPage, hex, Bool.false_eq_true, if_false,
            Option.some.injEq] at h
          rw [← h]
          simpa using hex

theorem isExcludedUrl_eq_false_iff (u : String) :
    isExcludedUrl u = false ↔
      u ≠ "" ∧ u ≠ "about:blank" ∧ u ≠ "chrome://newtab/" ∧
        strStartsWith u "chrome://" = false := by
  simp only [isExcludedUrl, Bool.or_eq_false_iff, beq_eq_false_iff_ne, ne_eq]
  tauto

theorem mem_scan_not_excluded (probe : Probe) (t : TabInfo)
    (h : t ∈ (fetch_all_chrome_urls probe).all_urls) : isExcludedUrl t.url = false := by
  unfold fetch_all_chrome_urls at h
  rw [scan_foldl_eq] at h
  simp only [List.nil_append, List.mem_flatMap] at h
  obtain ⟨port, -, hmem⟩ := h
  unfold endpointRecords at hmem
  rcases hp : probe port with - | ctxs
  · rw [hp] at hmem; simp at hmem
  · rw [hp] at hmem
    simp only [extractEndpoint, List.mem_flatMap] at hmem
    obtain ⟨c, -, hc⟩ := hmem
    simp only [extractContext, List.mem_filterMap] at hc
    obtain ⟨pg, -, hpg⟩ := hc
    exact extractPage_url_not_excluded _ _ _ _ _ hpg

/-- C2: the extraction step drops every page whose URL is the empty
string, `about:blank`, `chrome://newtab/`, or starts with `chrome://`,
whatever its title; consequently every record the scanner outputs has a
URL outside that excluded set. -/
theorem scan_excluded_urls_filtered :
    (∀ (port ctx_idx page_idx : Nat) (p : Page),
        (p.url = "" ∨ p.url = "about:blank" ∨ p.url = "chrome://newtab/" ∨
            strStartsWith p.url "chrome://" = true) →
        extractPage port ctx_idx page_idx (some p) = none) ∧
    (∀ (probe : Probe) (t : TabInfo), t ∈ (fetch_all_chrome_urls probe).all_urls →
        t.url ≠ "" ∧ t.url ≠ "about:blank" ∧ t.url ≠ "chrome://newtab/" ∧
          strStartsWith t.url "chrome://" = false) := by
  constructor
  · intro port ctx_idx page_idx p hp
    have hex : isExcludedUrl p.url = true := by
      simp only [isExcludedUrl, Bool.or_eq_true, beq_iff_eq]
      tauto
    simp [extractPage, hex]
  · intro probe t ht
    exact (isExcludedUrl_eq_false_iff t.url).mp (mem_scan_not_excluded probe t ht)

theorem scan_excluded_urls_filtered_witness :
    ((⟨"chrome://newtab/", "Settings"⟩ : Page).url = "" ∨
        (⟨"chrome://newtab/", "Settings"⟩ : Page).url = "about:blank" ∨
        (⟨"chrome://newtab/", "Settings"⟩ : Page).url = "chrome://newtab/" ∨
        strStartsWith (⟨"chrome://newtab/", "Settings"⟩ : Page).url "chrome://" = true) ∧
    extractPage 9222 0 0 (some ⟨"chrome://newtab/", "Settings"⟩) = none ∧
    tabA ∈ (fetch_all_chrome_urls probeA).all_urls ∧
    (tabA.url ≠ "" ∧ tabA.url ≠ "about:blank" ∧ tabA.url ≠ "chrome://newtab/" ∧
      strStartsWith tabA.url "chrome://" = false) :=
  ⟨by decide,
   scan_excluded_urls_filtered.1 9222 0 0 ⟨"chrome://newtab/", "Settings"⟩ (by decide),
   by decide,
   scan_excluded_urls_filtered.2 probeA tabA (by decide)⟩

theorem scan_all_unreachable_empty (probe : Probe)
    (h : ∀ p ∈ ports_to_check, probe p = none) :
    fetch_all_chrome_urls probe = ⟨[], []⟩ := by
  unfold fetch_all_chrome_urls
  rw [scan_foldl_eq]
  have hb : ∀ p ∈ ports_to_check, endpointRecords probe p = [] := by
    intro p hp
    simp [endpointRecords, h p hp]
  have hf : ∀ p ∈ ports_to_check, ((probe p).isSome = true) = False := by
    intro p hp
    simp [h p hp]
  rw [List.flatMap_eq_nil_iff.mpr hb]
  simp only [List.nil_append]
  congr 1
  rw [List.filter_eq_nil_iff]
  intro p hp
  simp [h p hp]

/-- Counterexample to C3 as stated: in a world where every candidate
endpoint is unreachable but the driver bootstrap of line 56 fails — or
the `finally` block's shutdown of line 117 fails — the scanner raises to
its caller instead of returning the empty outcome, because both calls
sit outside the protection of the `try`/`except` of lines 62-114. -/
theorem scan_bootstrap_failure_raises :
    fetch_all_chrome_urls_run ⟨true, false, fun _ => none⟩ = .raised ∧
    fetch_all_chrome_urls_run ⟨false, true, fun _ => none⟩ = .raised ∧
    (∀ p ∈ ports_to_check, (fun _ => (none : Option BrowserContexts)) p = none) :=
  ⟨rfl, rfl, fun _ _ => rfl⟩

/-- C3 amended: provided the playwright driver bootstrap (line 56,
which executes before the `try`) and the `finally` block's shutdown
(line 117) succeed, the scanner never raises to its caller — every
per-endpoint connection failure and per-page read failure is absorbed,
source lines 94-95 and 99-100, and the call completes with the loop's
aggregate report — and when additionally every candidate endpoint is
unreachable it completes with the empty record sequence and the empty
reachable-endpoint list, a valid outcome, not an error. -/
theorem scan_no_raise_when_driver_ok (w : DriverWorld)
    (hstart : w.startFails = false) (hstop : w.stopFails = false) :
    fetch_all_chrome_urls_run w = .completed (fetch_all_chrome_urls w.probe) ∧
    ((∀ p ∈ ports_to_check, w.probe p = none) →
      fetch_all_chrome_urls_run w = .completed ⟨[], []⟩) := by
  have h1 : fetch_all_chrome_urls_run w = .completed (fetch_all_chrome_urls w.probe) := by
    unfold fetch_all_chrome_urls_run
    rw [hstart, hstop]
    simp
  exact ⟨h1, fun hall => by rw [h1, scan_all_unreachable_empty w.probe hall]⟩

theorem scan_no_raise_when_driver_ok_witness :
    ((⟨false, false, fun _ => none⟩ : DriverWorld).startFails = false ∧
      (⟨false, false, fun _ => none⟩ : DriverWorld).stopFails = false ∧
      (∀ p ∈ ports_to_check, (⟨false, false, fun _ => none⟩ : DriverWorld).probe p = none)) ∧
    fetch_all_chrome_urls_run ⟨false, false, fun _ => none⟩ = .completed ⟨[], []⟩ :=
  ⟨⟨rfl, rfl, fun _ _ => rfl⟩,
   (scan_no_raise_when_driver_ok ⟨false, false, fun _ => none⟩ rfl rfl).2 (fun _ _ => rfl)⟩

/-- Counterexample to C4 as stated: in `leakyWorld` the probe of port
9222 succeeds (a `connect` event occurs), yet the scan never closes that
connection, because the context-level failure escapes the per-page
handlers and the per-port `except` at lines 99-100 moves on without
running the `await browser.close()` of line 97. -/
theorem scan_close_skipped_on_extraction_failure :
    ScanEv.connect 9222 ∈ scanConnectionEvents leakyWorld ∧
    ScanEv.close 9222 ∉ scanConnectionEvents leakyWorld := by decide

/-- C4 amended: for every endpoint whose probe succeeds, the scanner
closes the connection provided no exception escapes the per-page
handlers during extraction; page-level read failures are absorbed page
by page and still lead to the close, but a context-level extraction
failure skips it, so release is guaranteed only on those exit paths, not
on all of them. -/
theorem scan_close_after_clean_extraction (world : Nat → Option PortContexts)
    (port : Nat) (ctxs : PortContexts) (hp : port ∈ ports_to_check)
    (hw : world port = some ctxs) (hclean : none ∉ ctxs) :
    ScanEv.close port ∈ scanConnectionEvents world := by
  unfold scanConnectionEvents
  rw [List.mem_flatMap]
  refine ⟨port, hp, ?_⟩
  simp [portEvents, hw, hclean]

theorem scan_close_after_clean_extraction_witness :
    (9223 ∈ ports_to_check ∧
      closingWorld 9223 = some [some [some ⟨"https://x.test/a", "Docs"⟩, none]] ∧
      (none : Option (List (Option Page))) ∉
        [some [some (⟨"https://x.test/a", "Docs"⟩ : Page), none]]) ∧
    ScanEv.close 9223 ∈ scanConnectionEvents closingWorld :=
  ⟨⟨by decide, rfl, by decide⟩,
   scan_close_after_clean_extraction closingWorld 9223 _ (by decide) rfl (by decide)⟩

/-- C5: invoking the orchestrator on an empty tab inventory returns the
`None` sentinel with an empty effect trace — no agent invocation, no
telemetry step of any kind; in the source the `return None` of line 128
precedes the Galileo init, the prompt composition of lines 149-158 and
the agent call, so none of that work is performed. -/
theorem analyze_empty_rejects (custom_task : String) (w : TelemetryWorld)
    (agent : String → AgentBehavior) :
    analyze_urls [] custom_task w agent = (.returned none, []) := by
  simp [analyze_urls]

theorem pyReplaceBsN_no_backslash (l : List Char) (h : '\\' ∉ l) : pyReplaceBsN l = l := by
  induction l with
  | nil => rfl
  | cons c tl ih =>
      have hc : c ≠ '\\' := by
        intro hc; exact h (hc ▸ List.mem_cons_self c tl)
      have htl : '\\' ∉ tl := fun hm => h (List.mem_cons_of_mem c hm)
      cases tl with
      | nil => rfl
      | cons d rest =>
          have hcond : ¬(c = '\\' ∧ d = 'n') := fun hand => hc hand.1
          simp only [pyReplaceBsN, if_neg hcond]
          exact congrArg (c :: ·) (ih htl)

theorem pyReplaceBsN_append (l1 l2 : List Char) (h : '\\' ∉ l1) :
    pyReplaceBsN (l1 ++ '\\' :: 'n' :: l2) = l1 ++ '\n' :: pyReplaceBsN l2 := by
  induction l1 with
  | nil =>
      simp only [List.nil_append]
      simp [pyReplaceBsN]
  | cons c tl ih =>
      have hc : c ≠ '\\' := by
        intro hc; exact h (hc ▸ List.mem_cons_self c tl)
      have htl : '\\' ∉ tl := fun hm => h (List.mem_cons_of_mem c hm)
      cases tl with
      | nil =>
          simp only [List.nil_append, List.cons_append]
          simp [pyReplaceBsN, hc]
      | cons d rest =>
          have hcond : ¬(c = '\\' ∧ d = 'n') := fun hand => hc hand.1
          simp only [List.cons_append]
          simp only [pyReplaceBsN, if_neg hcond]
          rw [← List.cons_append, ih htl]
          simp

/-- C6: the orchestrator's output normalization substitutes the fixed
marker `Analysis failed` exactly when the agent's raw output is null or
empty, and otherwise replaces every literal backslash-n escape with a
real line break: the raw string `line1\x5cnline2` normalizes to the two
real lines `line1` and `line2`, each maximal escape-free prefix is
copied unchanged with the following escape turned into a newline, and a
string without backslashes is returned verbatim. -/
theorem analyze_output_normalization (tabs : List TabInfo) (custom_task : String)
    (w : TelemetryWorld) (h : tabs ≠ []) :
    (analyze_urls tabs custom_task w (fun _ => .returns none)).1 =
        .returned (some "Analysis failed") ∧
    (analyze_urls tabs custom_task w (fun _ => .returns (some ""))).1 =
        .returned (some "Analysis failed") ∧
    (∀ s : String, s ≠ "" →
      (analyze_urls tabs custom_task w (fun _ => .returns (some s))).1 =
        .returned (some (pyReplaceBackslashN s))) ∧
    pyReplaceBackslashN "line1\\nline2" = "line1\nline2" ∧
    (∀ l1 l2 : List Char, '\\' ∉ l1 →
      pyReplaceBsN (l1 ++ '\\' :: 'n' :: l2) = l1 ++ '\n' :: pyReplaceBsN l2) ∧
    (∀ l : List Char, '\\' ∉ l → pyReplaceBsN l = l) := by
  refine ⟨?_, ?_, ?_, by decide, pyReplaceBsN_append, pyReplaceBsN_no_backslash⟩
  · simp [analyze_urls, h, normalizeOutput]
  · simp [analyze_urls, h, normalizeOutput]
  · intro s hs
    simp [analyze_urls, h, normalizeOutput, hs]

theorem analyze_output_normalization_witness :
    (tabsOne ≠ []) ∧
    (analyze_urls tabsOne "List topics" telemetryDisabled (fun _ => .returns none)).1 =
        .returned (some "Analysis failed") ∧
    (analyze_urls tabsOne "List topics" telemetryDisabled
        (fun _ => .returns (some "line1\\nline2"))).1 =
        .returned (some "line1\nline2") := by
  have h := analyze_output_normalization tabsOne "List topics" telemetryDisabled (by decide)
  exact ⟨by decide, h.1, (h.2.2.1 "line1\\nline2" (by decide)).trans (by rw [h.2.2.2.1])⟩

/-- C8: the value the orchestrator returns is identical under every
telemetry world — in particular under any combination of forced failures
of init, trace-open, span-record, conclude or flush — to the value
returned with telemetry fully disabled; each telemetry step is wrapped
in its own handler in the source (lines 134-146, 161-166, 179-205), so
no telemetry failure raises into or past the orchestrator, which the
totality of this model over `TelemetryWorld` reflects. -/
theorem telemetry_failures_never_affect_result (tabs : List TabInfo)
    (custom_task : String) (agent : String → AgentBehavior) (w : TelemetryWorld) :
    (analyze_urls tabs custom_task w agent).1 =
      (analyze_urls tabs custom_task telemetryDisabled agent).1 := by
  by_cases h : tabs = []
  · subst h; rfl
  · simp only [analyze_urls, if_neg h]
    cases agent (composeTask tabs custom_task) <;> rfl

/-- C9: when the agent invocation raises, the orchestrator does not
catch it — the source wraps lines 169-172 in no handler — so the failure
propagates to the caller, no normalized analysis text is produced, and
no telemetry span, conclude or flush is recorded for the attempt,
whatever the telemetry world. -/
theorem agent_failure_propagates (tabs : List TabInfo) (custom_task : String)
    (w : TelemetryWorld) (h : tabs ≠ []) :
    (analyze_urls tabs custom_task w (fun _ => .raises)).1 = .raised ∧
    Effect.spanAdd ∉ (analyze_urls tabs custom_task w (fun _ => .raises)).2 ∧
    Effect.concludeTrace ∉ (analyze_urls tabs custom_task w (fun _ => .raises)).2 ∧
    Effect.flushTrace ∉ (analyze_urls tabs custom_task w (fun _ => .raises)).2 := by
  refine ⟨by simp [analyze_urls, h], ?_, ?_, ?_⟩ <;>
    · simp only [analyze_urls, if_neg h]
      split <;> split <;> simp

theorem agent_failure_propagates_witness :
    (tabsOne ≠ []) ∧
    (analyze_urls tabsOne "List topics" telemetryAllFail (fun _ => .raises)).1 = .raised ∧
    Effect.spanAdd ∉ (analyze_urls tabsOne "List topics" telemetryAllFail (fun _ => .raises)).2 :=
  ⟨by decide,
   (agent_failure_propagates tabsOne "List topics" telemetryAllFail (by decide)).1,
   (agent_failure_propagates tabsOne "List topics" telemetryAllFail (by decide)).2.1⟩

theorem pyReplaceBsN_ne_nil : ∀ (l : List Char), l ≠ [] → pyReplaceBsN l ≠ []
  | [], h => absurd rfl h
  | [_], _ => by simp [pyReplaceBsN]
  | _ :: _ :: _, _ => by
      simp only [pyReplaceBsN]
      split <;> simp

theorem normalizeOutput_ne_empty (res : Option String) : normalizeOutput res ≠ "" := by
  cases res with
  | none => simp [normalizeOutput]
  | some s =>
      by_cases hs : s = ""
      · simp [normalizeOutput, hs]
      · have hdata : s.data ≠ [] := by
          intro hd
          exact hs (by cases s; simp_all)
        simp only [normalizeOutput, if_neg hs]
        intro heq
        exact pyReplaceBsN_ne_nil s.data hdata (congrArg String.data heq)

/-- C10: the orchestrator returns the `None` sentinel exactly when the
tab inventory is empty; for a non-empty inventory, whenever the agent
invocation completes without raising, it returns some non-empty string
(the marker when the agent output was falsy, otherwise the normalized
text, which replacement cannot empty out) — so the caller's truthiness
check at line 342 never classifies a completed analysis as a failure. -/
theorem analyze_none_iff_empty (tabs : List TabInfo) (custom_task : String)
    (w : TelemetryWorld) (res : Option String) :
    ((analyze_urls tabs custom_task w (fun _ => .returns res)).1 = .returned none ↔
      tabs = []) ∧
    (tabs ≠ [] → ∃ s : String,
      (analyze_urls tabs custom_task w (fun _ => .returns res)).1 =
          .returned (some s) ∧ s ≠ "") := by
  by_cases h : tabs = []
  · subst h
    exact ⟨by simp [analyze_urls], fun hne => absurd rfl hne⟩
  · refine ⟨?_, fun _ => ⟨normalizeOutput res, by simp [analyze_urls, h], normalizeOutput_ne_empty res⟩⟩
    simp [analyze_urls, h]

theorem analyze_none_iff_empty_witness :
    (tabsOne ≠ []) ∧
    (∃ s : String,
      (analyze_urls tabsOne "List topics" telemetryDisabled (fun _ => .returns (some ""))).1 =
        .returned (some s) ∧ s ≠ "") :=
  ⟨by decide,
   (analyze_none_iff_empty tabsOne "List topics" telemetryDisabled (some "")).2 (by decide)⟩

theorem occursAtB_true_lt (pat s : List Char) (i : Nat) (hp : pat ≠ [])
    (h : occursAtB pat s i = true) : i < s.length := by
  by_contra hge
  push_neg at hge
  rw [occursAtB, List.drop_eq_nil_of_le hge] at h
  simp only [List.take_nil, beq_iff_eq] at h
  exact hp h.symm

/-- Counterexample to C7 as stated: in the composed prompt for a 3-tab
inventory the block of numbered lines occurs, yet no occurrence of the
literal count digit `3` (hence, a fortiori, of any rendering of the
count) lies at or after the end of that block — the count is *not*
placed after the numbered lines, because the f-string of source lines
152-158 emits `I have 3 browser tabs saved` *before* the inventory. -/
theorem composer_lines_not_followed_by_count :
    (∃ i, occursAtB linesB outB i = true) ∧
    ¬ ∃ i j, occursAtB linesB outB i = true ∧ occursAtB ['3'] outB j = true ∧
        i + linesB.length ≤ j := by
  constructor
  · exact ⟨60, by decide⟩
  · rintro ⟨i, j, hi, hj, hle⟩
    have hi' : i < outB.length := occursAtB_true_lt _ _ _ (by decide) hi
    have hj' : j < outB.length := occursAtB_true_lt _ _ _ (by decide) hj
    have h60 : ∀ k, k < outB.length → occursAtB linesB outB k = true → k = 60 := by decide
    have h3 : ∀ k, k < outB.length → occursAtB ['3'] outB k = true → k < 86 := by decide
    have hlen : linesB.length = 26 := by decide
    have hi60 : i = 60 := h60 i hi' hi
    have hj86 : j < 86 := h3 j hj' hj
    omega

theorem strData_append (s t : String) : (s ++ t).data = s.data ++ t.data := by
  cases s; cases t; rfl

/-- C7 amended: the prompt composer is a pure function of the inventory
and the instruction whose output contains, in order, the literal count
of tabs, then each tab rendered as a 1-based numbered line of
`title - url` (the lines joined by newlines), then the verbatim
instruction text followed only by trailing indentation; for the 3-tab
scenario the rendered inventory is exactly the three numbered lines and
the rendered count is the literal `3`. -/
theorem composer_renders_count_lines_instruction (tabs : List TabInfo) (instr : String) :
    (∃ a b c : List Char,
        (composeTask tabs instr).data =
          a ++ (toString tabs.length).data ++ b ++ (urlsText tabs).data ++ c ++
            instr.data ++ ("\n    ").data) ∧
    urlsText tabsB = "1. A - u\n2. B - v\n3. C - w" ∧
    toString tabsB.length = "3" := by
  refine ⟨⟨("\n    I have ").data,
          (" browser tabs saved. Here\x27s the list:\n    \n    ").data,
          ("\n    \n    ").data, ?_⟩, by decide, by decide⟩
  simp only [composeTask, strData_append, List.append_assoc]

end TabAnalyzer
